import Mathlib

/-!
Shallow embedding of the `weather_clock` verification scripts.

Each Python script under `src/` (and `src/verification/`) is a straight-line
Playwright driver: launch a browser, navigate, wait, invoke debug hooks,
capture screenshots, tear down.  Every fallible browser operation in a script
(navigation, a wait-for-selector with a timeout, an `evaluate`, a click, an
inner-text read, a screenshot) is given one Boolean in that script's world
structure `W` saying whether the operation succeeds in that run; the dust
script's world additionally carries the Booleans the page evaluation returns.
The script's `run` function follows the Python control flow (its `try` /
`except` / `finally` structure and its branches) leaf by leaf and returns a
`RunResult` recording how often `browser.close()` ran, which exception (if
any) escaped or was caught, any `exit(n)` call, and the traces of screenshot
destinations, `setDebugWeather` codes and fixed sleep durations the run
produced.
-/

/-- Exception kinds a script run can raise.  `frameworkTimeout` is the raw
automation-library (Playwright) timeout raised by `page.goto` /
`page.wait_for_selector`; `readinessTimeout` is the `ReadinessTimeoutError`
the specification postulates — it is declared here only so that claims about
it can be stated, no script constructs it. -/
inductive Err where
  | navigationError
  | frameworkTimeout (selector : String)
  | readinessTimeout (diag : String)
  | evalError
  | captureError
  | checkFailed (msg : String)
deriving Repr, DecidableEq

/-- True exactly for the spec-postulated `ReadinessTimeoutError`. -/
def Err.isReadinessTimeout : Err → Bool
  | Err.readinessTimeout _ => true
  | _ => false

/-- Observable outcome of one script run.  `closeCount` counts executions of
`browser.close()`; `exitCalled` records an explicit `exit(n)` (Python
`SystemExit`, not caught by `except Exception`); `uncaught` is an exception
escaping the script to the interpreter; `caughtErr` is an exception the
script caught and printed.  The three lists are the run's traces: screenshot
destinations supplied to `page.screenshot`, codes passed to
`window.setDebugWeather`, and fixed wait durations (`time.sleep` /
`page.wait_for_timeout`) in milliseconds.  `verdict` is the printed
SUCCESS/FAILURE verdict of a checking script. -/
structure RunResult where
  closeCount : Nat := 0
  exitCalled : Option Nat := none
  uncaught : Option Err := none
  caughtErr : Option Err := none
  screenshots : List String := []
  weatherCodes : List Nat := []
  sleepsMs : List Nat := []
  verdict : Option Bool := none
deriving Repr, DecidableEq

/-- Process exit code of the run: an explicit `exit(n)` wins, an uncaught
exception makes the interpreter exit 1, otherwise 0. -/
def RunResult.processExit (r : RunResult) : Nat :=
  match r.exitCalled with
  | some n => n
  | none => if r.uncaught.isSome then 1 else 0

/-- The error a failed run surfaces: the one the script caught and printed
if any, otherwise the one that escaped. -/
def RunResult.surfaced (r : RunResult) : Option Err :=
  match r.caughtErr with
  | some e => some e
  | none => r.uncaught

/-- Whether the run surfaced a spec-style `ReadinessTimeoutError`. -/
def RunResult.surfacedReadiness (r : RunResult) : Bool :=
  match r.surfaced with
  | some e => e.isReadinessTimeout
  | none => false

/-- The date-display population check of
`src/verification/verify_date_display.py` lines 19–20:
`if len(date_text) < 3 or date_text == "--": raise Exception(...)`.
Returns `true` when the check raises. -/
def dateCheckRaises (t : String) : Bool :=
  t.length < 3 || t == "--"

/-- Milliseconds bound of the spec's “1–6 time units (seconds)” window for
fixed settled waits. -/
def fixedWaitInRange (d : Nat) : Bool :=
  decide (1000 ≤ d) && decide (d ≤ 6000)

namespace VerifyScript

/-- Outcomes of the fallible operations of
`src/verification/verify_script.py`: `page.goto`,
`page.wait_for_selector("canvas")`, `page.screenshot`. -/
structure W where
  gotoOk : Bool
  waitOk : Bool
  shotOk : Bool
deriving Repr, DecidableEq

/-- Embeds `verify_weather_app()` of `src/verification/verify_script.py`.
The script is straight-line with no `try`: any exception skips the final
`browser.close()` and escapes. -/
def run (w : W) : RunResult :=
  if !w.gotoOk then
    { uncaught := some Err.navigationError }
  else if !w.waitOk then
    { uncaught := some (Err.frameworkTimeout "canvas") }
  else if !w.shotOk then
    { uncaught := some Err.captureError, sleepsMs := [2000],
      screenshots := ["verification/visual_check.png"] }
  else
    { closeCount := 1, sleepsMs := [2000],
      screenshots := ["verification/visual_check.png"] }

end VerifyScript

namespace VerifySky

/-- Outcomes of the fallible operations of `src/verification/verify_sky.py`:
`page.goto`, the `setDebugTime(17)` evaluate, the `setDebugWeather(0)`
evaluate, `page.screenshot`. -/
structure W where
  gotoOk : Bool
  timeOk : Bool
  weatherOk : Bool
  shotOk : Bool
deriving Repr, DecidableEq

/-- Embeds `verify_sky()` of `src/verification/verify_sky.py`.  Straight-line
with no `try`: any exception skips `browser.close()` and escapes. -/
def run (w : W) : RunResult :=
  if !w.gotoOk then
    { uncaught := some Err.navigationError }
  else if !w.timeOk then
    { uncaught := some Err.evalError, sleepsMs := [3000] }
  else if !w.weatherOk then
    { uncaught := some Err.evalError, sleepsMs := [3000], weatherCodes := [0] }
  else if !w.shotOk then
    { uncaught := some Err.captureError, sleepsMs := [3000, 3000],
      weatherCodes := [0], screenshots := ["verification/sky_noon_real.png"] }
  else
    { closeCount := 1, sleepsMs := [3000, 3000], weatherCodes := [0],
      screenshots := ["verification/sky_noon_real.png"] }

end VerifySky

namespace VerifyStorm

/-- Outcomes of the fallible operations of `src/verify_storm.py`:
`page.goto`, `page.wait_for_selector`, the `setDebugWeather(95)` evaluate,
`page.screenshot`. -/
structure W where
  gotoOk : Bool
  waitOk : Bool
  w95Ok : Bool
  shotOk : Bool
deriving Repr, DecidableEq

/-- Embeds `run()` of `src/verify_storm.py`.  Straight-line with no `try`:
any exception skips `browser.close()` and escapes. -/
def run (w : W) : RunResult :=
  if !w.gotoOk then
    { uncaught := some Err.navigationError }
  else if !w.waitOk then
    { uncaught := some (Err.frameworkTimeout "#canvas-container canvas") }
  else if !w.w95Ok then
    { uncaught := some Err.evalError, sleepsMs := [2000], weatherCodes := [95] }
  else if !w.shotOk then
    { uncaught := some Err.captureError, sleepsMs := [2000, 6000],
      weatherCodes := [95], screenshots := ["verification_storm_new.png"] }
  else
    { closeCount := 1, sleepsMs := [2000, 6000], weatherCodes := [95],
      screenshots := ["verification_storm_new.png"] }

end VerifyStorm

namespace VerifySplashes

/-- Outcomes of the fallible operations of
`src/verification/verify_splashes.py` (`page.goto`, the `setDebugWeather(61)`
evaluate, `btn.click`, `btn.inner_text`, `page.screenshot`) together with the
Boolean `btn.is_visible()` the script branches on. -/
structure W where
  gotoOk : Bool
  weatherOk : Bool
  btnVisible : Bool
  clickOk : Bool
  textOk : Bool
  shotOk : Bool
deriving Repr, DecidableEq

/-- Embeds `verify_splashes()` of `src/verification/verify_splashes.py`.
Straight-line with no `try`: any exception skips `browser.close()` and
escapes.  When the time-warp button is visible the script clicks it, sleeps
1 s and reads its text before the final screenshot. -/
def run (w : W) : RunResult :=
  if !w.gotoOk then
    { uncaught := some Err.navigationError }
  else if !w.weatherOk then
    { uncaught := some Err.evalError, sleepsMs := [5000], weatherCodes := [61] }
  else if w.btnVisible then
    if !w.clickOk then
      { uncaught := some Err.evalError, sleepsMs := [5000, 5000],
        weatherCodes := [61] }
    else if !w.textOk then
      { uncaught := some Err.evalError, sleepsMs := [5000, 5000, 1000],
        weatherCodes := [61] }
    else if !w.shotOk then
      { uncaught := some Err.captureError, sleepsMs := [5000, 5000, 1000],
        weatherCodes := [61], screenshots := ["verification/splashes.png"] }
    else
      { closeCount := 1, sleepsMs := [5000, 5000, 1000], weatherCodes := [61],
        screenshots := ["verification/splashes.png"] }
  else
    if !w.shotOk then
      { uncaught := some Err.captureError, sleepsMs := [5000, 5000],
        weatherCodes := [61], screenshots := ["verification/splashes.png"] }
    else
      { closeCount := 1, sleepsMs := [5000, 5000], weatherCodes := [61],
        screenshots := ["verification/splashes.png"] }

end VerifySplashes

namespace VerifySunny

/-- Outcomes of the fallible operations of
`src/verification/verify_sunny.py`: `page.goto`, `page.wait_for_selector`,
the `setDebugTime(12)` evaluate, the two `setDebugWeather` evaluates, the
two screenshots. -/
structure W where
  gotoOk : Bool
  waitOk : Bool
  timeOk : Bool
  w0Ok : Bool
  shot1Ok : Bool
  w2Ok : Bool
  shot2Ok : Bool
deriving Repr, DecidableEq

/-- Embeds `verify_weather_app(page)` with the `__main__` harness of
`src/verification/verify_sunny.py`: the body runs in `try/finally
browser.close()` with no `except`, so the browser is always closed but an
exception still escapes to the interpreter afterwards. -/
def run (w : W) : RunResult :=
  if !w.gotoOk then
    { closeCount := 1, uncaught := some Err.navigationError }
  else if !w.waitOk then
    { closeCount := 1, uncaught := some (Err.frameworkTimeout "canvas") }
  else if !w.timeOk then
    { closeCount := 1, uncaught := some Err.evalError, sleepsMs := [5000] }
  else if !w.w0Ok then
    { closeCount := 1, uncaught := some Err.evalError, sleepsMs := [5000],
      weatherCodes := [0] }
  else if !w.shot1Ok then
    { closeCount := 1, uncaught := some Err.captureError,
      sleepsMs := [5000, 1000], weatherCodes := [0],
      screenshots := ["verification/verify_sunny.png"] }
  else if !w.w2Ok then
    { closeCount := 1, uncaught := some Err.evalError,
      sleepsMs := [5000, 1000], weatherCodes := [0, 2],
      screenshots := ["verification/verify_sunny.png"] }
  else if !w.shot2Ok then
    { closeCount := 1, uncaught := some Err.captureError,
      sleepsMs := [5000, 1000, 1000], weatherCodes := [0, 2],
      screenshots := ["verification/verify_sunny.png",
                      "verification/verify_cloudy.png"] }
  else
    { closeCount := 1, sleepsMs := [5000, 1000, 1000], weatherCodes := [0, 2],
      screenshots := ["verification/verify_sunny.png",
                      "verification/verify_cloudy.png"] }

end VerifySunny

namespace VerifyChanges

/-- Outcomes of the fallible operations of
`src/verification/verify_changes.py`: `page.goto`, `page.wait_for_selector`,
the time-warp click, the computed-style evaluate, the two screenshots and
the `setDebugWeather(65)` evaluate. -/
structure W where
  gotoOk : Bool
  waitOk : Bool
  clickOk : Bool
  colorOk : Bool
  shot1Ok : Bool
  w65Ok : Bool
  shot2Ok : Bool
deriving Repr, DecidableEq

/-- Embeds `verify_weather(page)` with the `__main__` harness of
`src/verification/verify_changes.py`: `try/except Exception` (printed)
`/finally browser.close()`, so every exception is caught and the process
exits 0. -/
def run (w : W) : RunResult :=
  if !w.gotoOk then
    { closeCount := 1, caughtErr := some Err.navigationError }
  else if !w.waitOk then
    { closeCount := 1, caughtErr := some (Err.frameworkTimeout "#canvas-container") }
  else if !w.clickOk then
    { closeCount := 1, caughtErr := some Err.evalError, sleepsMs := [2000] }
  else if !w.colorOk then
    { closeCount := 1, caughtErr := some Err.evalError, sleepsMs := [2000, 1000] }
  else if !w.shot1Ok then
    { closeCount := 1, caughtErr := some Err.captureError,
      sleepsMs := [2000, 1000],
      screenshots := ["verification/verify_timewarp.png"] }
  else if !w.w65Ok then
    { closeCount := 1, caughtErr := some Err.evalError, sleepsMs := [2000, 1000],
      screenshots := ["verification/verify_timewarp.png"], weatherCodes := [65] }
  else if !w.shot2Ok then
    { closeCount := 1, caughtErr := some Err.captureError,
      sleepsMs := [2000, 1000, 2000],
      screenshots := ["verification/verify_timewarp.png",
                      "verification/verify_rain_splash.png"],
      weatherCodes := [65] }
  else
    { closeCount := 1, sleepsMs := [2000, 1000, 2000],
      screenshots := ["verification/verify_timewarp.png",
                      "verification/verify_rain_splash.png"],
      weatherCodes := [65] }

end VerifyChanges

namespace VerifyCloudsV

/-- Outcomes of the fallible operations of
`src/verification/verify_clouds.py`: `page.goto`, `page.wait_for_selector`,
the two screenshots. -/
structure W where
  gotoOk : Bool
  waitOk : Bool
  shot1Ok : Bool
  shot2Ok : Bool
deriving Repr, DecidableEq

/-- Embeds `verify_clouds()` of `src/verification/verify_clouds.py`:
`try/except Exception` (printed) `/finally browser.close()`, process exits
0 on every path. -/
def run (w : W) : RunResult :=
  if !w.gotoOk then
    { closeCount := 1, caughtErr := some Err.navigationError }
  else if !w.waitOk then
    { closeCount := 1,
      caughtErr := some (Err.frameworkTimeout "#canvas-container canvas") }
  else if !w.shot1Ok then
    { closeCount := 1, caughtErr := some Err.captureError, sleepsMs := [5000],
      screenshots := ["verification/clouds_1.png"] }
  else if !w.shot2Ok then
    { closeCount := 1, caughtErr := some Err.captureError,
      sleepsMs := [5000, 2000],
      screenshots := ["verification/clouds_1.png", "verification/clouds_2.png"] }
  else
    { closeCount := 1, sleepsMs := [5000, 2000],
      screenshots := ["verification/clouds_1.png", "verification/clouds_2.png"] }

end VerifyCloudsV

namespace VerifyDateDisplay

/-- Outcomes of the fallible operations of
`src/verification/verify_date_display.py` (`page.goto`,
`page.wait_for_selector("#date-display", timeout=10000)`, the `inner_text`
read, `page.screenshot`) together with the text the read returns. -/
structure W where
  gotoOk : Bool
  waitOk : Bool
  textOk : Bool
  dateText : String
  shotOk : Bool
deriving Repr, DecidableEq

/-- Embeds `verify_date(page)` with the `__main__` harness of
`src/verification/verify_date_display.py`: `try/except Exception` (printed,
then `exit(1)`) `/finally browser.close()`.  The body raises via
`dateCheckRaises` when the captured text fails the population check. -/
def run (w : W) : RunResult :=
  if !w.gotoOk then
    { closeCount := 1, exitCalled := some 1,
      caughtErr := some Err.navigationError }
  else if !w.waitOk then
    { closeCount := 1, exitCalled := some 1,
      caughtErr := some (Err.frameworkTimeout "#date-display") }
  else if !w.textOk then
    { closeCount := 1, exitCalled := some 1, caughtErr := some Err.evalError,
      sleepsMs := [2000] }
  else if dateCheckRaises w.dateText then
    { closeCount := 1, exitCalled := some 1,
      caughtErr := some (Err.checkFailed w.dateText), sleepsMs := [2000] }
  else if !w.shotOk then
    { closeCount := 1, exitCalled := some 1, caughtErr := some Err.captureError,
      sleepsMs := [2000], screenshots := ["verification_date.png"] }
  else
    { closeCount := 1, sleepsMs := [2000],
      screenshots := ["verification_date.png"] }

end VerifyDateDisplay

namespace VerifyDust

/-- Outcomes of the fallible operations of
`src/verification/verify_dust.py` (`page.goto`, `page.wait_for_selector`,
the dust-query evaluate) together with the four Booleans the page
evaluation returns for `window.aetherDebug.weatherEffects`. -/
structure W where
  gotoOk : Bool
  waitOk : Bool
  evalOk : Bool
  pastDust : Bool
  currDust : Bool
  futureDust : Bool
  dustVisible : Bool
deriving Repr, DecidableEq

/-- Embeds `verify_dust()` of `src/verification/verify_dust.py`:
`try/except Exception` (printed, then `exit(1)`) `/finally browser.close()`.
The SUCCESS branch requires `pastDust and currDust and futureDust`; the
FAILURE branch calls `exit(1)` (a `SystemExit`, not caught by
`except Exception`, so `finally` still closes the browser and the process
exits 1).  The reported `dustVisible` field is read but never used by the
branch. -/
def run (w : W) : RunResult :=
  if !w.gotoOk then
    { closeCount := 1, exitCalled := some 1,
      caughtErr := some Err.navigationError }
  else if !w.waitOk then
    { closeCount := 1, exitCalled := some 1,
      caughtErr := some (Err.frameworkTimeout "canvas") }
  else if !w.evalOk then
    { closeCount := 1, exitCalled := some 1, caughtErr := some Err.evalError,
      sleepsMs := [2000] }
  else if w.pastDust && w.currDust && w.futureDust then
    { closeCount := 1, sleepsMs := [2000], verdict := some true }
  else
    { closeCount := 1, exitCalled := some 1, sleepsMs := [2000],
      verdict := some false }

end VerifyDust

namespace VerifyNight

/-- Outcomes of the fallible operations of
`src/verification/verify_night.py`: `page.goto`, `page.wait_for_selector`,
the `setDebugTime(4)` evaluate, the two `setDebugWeather` evaluates, the
two screenshots. -/
structure W where
  gotoOk : Bool
  waitOk : Bool
  timeOk : Bool
  w0Ok : Bool
  shot1Ok : Bool
  w95Ok : Bool
  shot2Ok : Bool
deriving Repr, DecidableEq

/-- Embeds `verify_night_lighting()` of `src/verification/verify_night.py`:
`try/except Exception` (printed) `/finally browser.close()`, process exits
0 on every path. -/
def run (w : W) : RunResult :=
  if !w.gotoOk then
    { closeCount := 1, caughtErr := some Err.navigationError }
  else if !w.waitOk then
    { closeCount := 1, caughtErr := some (Err.frameworkTimeout "canvas") }
  else if !w.timeOk then
    { closeCount := 1, caughtErr := some Err.evalError }
  else if !w.w0Ok then
    { closeCount := 1, caughtErr := some Err.evalError, sleepsMs := [2000],
      weatherCodes := [0] }
  else if !w.shot1Ok then
    { closeCount := 1, caughtErr := some Err.captureError,
      sleepsMs := [2000, 3000], weatherCodes := [0],
      screenshots := ["verification/night_clear.png"] }
  else if !w.w95Ok then
    { closeCount := 1, caughtErr := some Err.evalError,
      sleepsMs := [2000, 3000], weatherCodes := [0, 95],
      screenshots := ["verification/night_clear.png"] }
  else if !w.shot2Ok then
    { closeCount := 1, caughtErr := some Err.captureError,
      sleepsMs := [2000, 3000, 3000], weatherCodes := [0, 95],
      screenshots := ["verification/night_clear.png",
                      "verification/night_storm.png"] }
  else
    { closeCount := 1, sleepsMs := [2000, 3000, 3000], weatherCodes := [0, 95],
      screenshots := ["verification/night_clear.png",
                      "verification/night_storm.png"] }

end VerifyNight

namespace VerifyWeather

/-- Outcomes of the fallible operations of
`src/verification/verify_weather.py`: `page.goto`, `page.wait_for_selector`,
the three screenshots and the two `setDebugWeather` evaluates. -/
structure W where
  gotoOk : Bool
  waitOk : Bool
  shot1Ok : Bool
  w65Ok : Bool
  shot2Ok : Bool
  w0Ok : Bool
  shot3Ok : Bool
deriving Repr, DecidableEq

/-- Embeds `verify_weather_app()` of `src/verification/verify_weather.py`.
A failing `page.goto` is caught by its own `try`, prints, closes the
browser and returns; the rest runs in `try/except Exception` (printed)
`/finally browser.close()`.  The process exits 0 on every path. -/
def run (w : W) : RunResult :=
  if !w.gotoOk then
    { closeCount := 1, caughtErr := some Err.navigationError }
  else if !w.waitOk then
    { closeCount := 1, caughtErr := some (Err.frameworkTimeout "canvas") }
  else if !w.shot1Ok then
    { closeCount := 1, caughtErr := some Err.captureError, sleepsMs := [3000],
      screenshots := ["verification/initial_state.png"] }
  else if !w.w65Ok then
    { closeCount := 1, caughtErr := some Err.evalError, sleepsMs := [3000],
      screenshots := ["verification/initial_state.png"], weatherCodes := [65] }
  else if !w.shot2Ok then
    { closeCount := 1, caughtErr := some Err.captureError,
      sleepsMs := [3000, 3000],
      screenshots := ["verification/initial_state.png",
                      "verification/heavy_rain.png"],
      weatherCodes := [65] }
  else if !w.w0Ok then
    { closeCount := 1, caughtErr := some Err.evalError,
      sleepsMs := [3000, 3000],
      screenshots := ["verification/initial_state.png",
                      "verification/heavy_rain.png"],
      weatherCodes := [65, 0] }
  else if !w.shot3Ok then
    { closeCount := 1, caughtErr := some Err.captureError,
      sleepsMs := [3000, 3000, 5000],
      screenshots := ["verification/initial_state.png",
                      "verification/heavy_rain.png",
                      "verification/clear_sky.png"],
      weatherCodes := [65, 0] }
  else
    { closeCount := 1, sleepsMs := [3000, 3000, 5000],
      screenshots := ["verification/initial_state.png",
                      "verification/heavy_rain.png",
                      "verification/clear_sky.png"],
      weatherCodes := [65, 0] }

end VerifyWeather

namespace VerifyCloudsRoot

/-- Outcomes of the fallible operations of `src/verify_clouds.py`:
`page.goto`, `page.wait_for_selector`, the two `setDebugWeather` evaluates,
the two screenshots. -/
structure W where
  gotoOk : Bool
  waitOk : Bool
  w3Ok : Bool
  shot1Ok : Bool
  w95Ok : Bool
  shot2Ok : Bool
deriving Repr, DecidableEq

/-- Embeds `verify_clouds()` of `src/verify_clouds.py`:
`try/except Exception` (printed) `/finally browser.close()`, process exits
0 on every path. -/
def run (w : W) : RunResult :=
  if !w.gotoOk then
    { closeCount := 1, caughtErr := some Err.navigationError }
  else if !w.waitOk then
    { closeCount := 1, caughtErr := some (Err.frameworkTimeout "canvas") }
  else if !w.w3Ok then
    { closeCount := 1, caughtErr := some Err.evalError, sleepsMs := [3000],
      weatherCodes := [3] }
  else if !w.shot1Ok then
    { closeCount := 1, caughtErr := some Err.captureError,
      sleepsMs := [3000, 6000], weatherCodes := [3],
      screenshots := ["verification_clouds.png"] }
  else if !w.w95Ok then
    { closeCount := 1, caughtErr := some Err.evalError,
      sleepsMs := [3000, 6000], weatherCodes := [3, 95],
      screenshots := ["verification_clouds.png"] }
  else if !w.shot2Ok then
    { closeCount := 1, caughtErr := some Err.captureError,
      sleepsMs := [3000, 6000, 6000], weatherCodes := [3, 95],
      screenshots := ["verification_clouds.png", "verification_storm.png"] }
  else
    { closeCount := 1, sleepsMs := [3000, 6000, 6000], weatherCodes := [3, 95],
      screenshots := ["verification_clouds.png", "verification_storm.png"] }

end VerifyCloudsRoot

namespace VerifyScene

/-- Outcomes of the fallible operations of `src/verify_scene.py`:
`page.goto`, `page.wait_for_selector`, the scene screenshot, and the
fallback `error_state.png` screenshot attempted in the `except` branch. -/
structure W where
  gotoOk : Bool
  waitOk : Bool
  shotOk : Bool
  fallbackOk : Bool
deriving Repr, DecidableEq

/-- Embeds `run()` of `src/verify_scene.py`: `try/except Exception`
(printed, then a fallback screenshot to `error_state.png` inside a bare
`try/except: pass`) `/finally browser.close()`.  The bare `except` swallows
the fallback capture's own outcome, so `fallbackOk` does not change the
result; the fallback destination is requested on every error path. -/
def run (w : W) : RunResult :=
  if !w.gotoOk then
    { closeCount := 1, caughtErr := some Err.navigationError,
      screenshots := ["error_state.png"] }
  else if !w.waitOk then
    { closeCount := 1,
      caughtErr := some (Err.frameworkTimeout "#canvas-container canvas"),
      screenshots := ["error_state.png"] }
  else if !w.shotOk then
    { closeCount := 1, caughtErr := some Err.captureError, sleepsMs := [5000],
      screenshots := ["verification_scene.png", "error_state.png"] }
  else
    { closeCount := 1, sleepsMs := [5000],
      screenshots := ["verification_scene.png"] }

end VerifyScene

/-! Helper lemmas about `VerifyDateDisplay.run`, whose world carries the
captured date text as a `String` and therefore cannot be settled by finite
enumeration alone: the text only enters the control flow through
`dateCheckRaises`, so one case split on that Boolean decides every path. -/

theorem dateDisplay_closeCount (g wo tk so : Bool) (t : String) :
    (VerifyDateDisplay.run ⟨g, wo, tk, t, so⟩).closeCount = 1 := by
  rcases Bool.eq_false_or_eq_true (dateCheckRaises t) with h | h <;>
    cases g <;> cases wo <;> cases tk <;> cases so <;>
      simp [VerifyDateDisplay.run, h]

theorem dateDisplay_processExit (g wo tk so : Bool) (t : String) :
    RunResult.processExit (VerifyDateDisplay.run ⟨g, wo, tk, t, so⟩)
      = if g && wo && tk && !dateCheckRaises t && so then 0 else 1 := by
  rcases Bool.eq_false_or_eq_true (dateCheckRaises t) with h | h <;>
    cases g <;> cases wo <;> cases tk <;> cases so <;>
      simp [VerifyDateDisplay.run, RunResult.processExit, h]

theorem dateDisplay_screenshots_nodup (g wo tk so : Bool) (t : String) :
    List.Nodup (VerifyDateDisplay.run ⟨g, wo, tk, t, so⟩).screenshots := by
  rcases Bool.eq_false_or_eq_true (dateCheckRaises t) with h | h <;>
    cases g <;> cases wo <;> cases tk <;> cases so <;>
      simp [VerifyDateDisplay.run, h]

theorem dateDisplay_waits_in_range (g wo tk so : Bool) (t : String) :
    ((VerifyDateDisplay.run ⟨g, wo, tk, t, so⟩).sleepsMs.all fixedWaitInRange)
      = true := by
  rcases Bool.eq_false_or_eq_true (dateCheckRaises t) with h | h <;>
    cases g <;> cases wo <;> cases tk <;> cases so <;>
      simp [VerifyDateDisplay.run, h] <;> decide

theorem dateDisplay_no_readiness_error (g wo tk so : Bool) (t : String) :
    (VerifyDateDisplay.run ⟨g, wo, tk, t, so⟩).surfacedReadiness = false := by
  rcases Bool.eq_false_or_eq_true (dateCheckRaises t) with h | h <;>
    cases g <;> cases wo <;> cases tk <;> cases so <;>
      simp [VerifyDateDisplay.run, RunResult.surfacedReadiness,
        RunResult.surfaced, Err.isReadinessTimeout, h]

/-! Claim theorems. -/

/-- C1 counterexample: in `src/verification/verify_script.py`, a run whose
`wait_for_selector` raises leaves the browser session unclosed — the close
count is 0, not 1, refuting “the browser session is closed on every exit
path … exactly once per run”. -/
theorem verifyScript_unclosed_on_wait_failure :
    (VerifyScript.run ⟨true, false, true⟩).closeCount = 0 ∧
      (VerifyScript.run ⟨true, false, true⟩).uncaught
        = some (Err.frameworkTimeout "canvas") := by
  decide

/-- C1 (amended): the nine scripts that close the browser in a `finally`
block (or, for `verify_weather.py`, on each return path) close it exactly
once on every exit path; in `verify_script.py`, `verify_sky.py`,
`verify_splashes.py` and `verify_storm.py` the close call runs only when no
exception occurs, so a failure in navigation, waiting, evaluation or capture
leaves the session unclosed. -/
theorem browser_close_per_script :
    (∀ g wo c co s1 e s2 : Bool,
        (VerifyChanges.run ⟨g, wo, c, co, s1, e, s2⟩).closeCount = 1) ∧
    (∀ g wo s1 s2 : Bool,
        (VerifyCloudsV.run ⟨g, wo, s1, s2⟩).closeCount = 1) ∧
    (∀ (g wo tk so : Bool) (t : String),
        (VerifyDateDisplay.run ⟨g, wo, tk, t, so⟩).closeCount = 1) ∧
    (∀ g wo e p c f v : Bool,
        (VerifyDust.run ⟨g, wo, e, p, c, f, v⟩).closeCount = 1) ∧
    (∀ a b c d e f h : Bool,
        (VerifyNight.run ⟨a, b, c, d, e, f, h⟩).closeCount = 1) ∧
    (∀ a b c d e f h : Bool,
        (VerifySunny.run ⟨a, b, c, d, e, f, h⟩).closeCount = 1) ∧
    (∀ a b c d e f h : Bool,
        (VerifyWeather.run ⟨a, b, c, d, e, f, h⟩).closeCount = 1) ∧
    (∀ a b c d e f : Bool,
        (VerifyCloudsRoot.run ⟨a, b, c, d, e, f⟩).closeCount = 1) ∧
    (∀ a b c d : Bool, (VerifyScene.run ⟨a, b, c, d⟩).closeCount = 1) ∧
    (∀ a b c : Bool,
        (VerifyScript.run ⟨a, b, c⟩).closeCount
          = if a && b && c then 1 else 0) ∧
    (∀ a b c d : Bool,
        (VerifySky.run ⟨a, b, c, d⟩).closeCount
          = if a && b && c && d then 1 else 0) ∧
    (∀ a b c d e f : Bool,
        (VerifySplashes.run ⟨a, b, c, d, e, f⟩).closeCount
          = if a && b && (!c || d && e) && f then 1 else 0) ∧
    (∀ a b c d : Bool,
        (VerifyStorm.run ⟨a, b, c, d⟩).closeCount
          = if a && b && c && d then 1 else 0) :=
  ⟨by decide, by decide, dateDisplay_closeCount, by decide, by decide,
    by decide, by decide, by decide, by decide, by decide, by decide,
    by decide, by decide⟩

/-- C2 counterexample: a run of `src/verification/verify_changes.py` in
which navigation fails is caught and printed by its `__main__` handler and
the process still exits 0, refuting “non-zero exit code if … any error
occurred during the run”. -/
theorem verifyChanges_exit_zero_on_error :
    RunResult.processExit
        (VerifyChanges.run ⟨false, true, true, true, true, true, true⟩) = 0 ∧
      (VerifyChanges.run ⟨false, true, true, true, true, true, true⟩).caughtErr
        = some Err.navigationError := by
  decide

/-- C2 (amended): `verify_date_display.py` and `verify_dust.py` exit 0
exactly when every operation and check succeeds and exit 1 otherwise, and
the handler-less scripts (`verify_script.py`, `verify_sky.py`,
`verify_splashes.py`, `verify_sunny.py`, `verify_storm.py`) exit non-zero
through the uncaught exception; but `verify_changes.py`,
`verification/verify_clouds.py`, `verify_night.py`, `verify_weather.py`,
`src/verify_clouds.py` and `verify_scene.py` catch and print every error
and exit 0 regardless. -/
theorem exit_code_per_script :
    (∀ (g wo tk so : Bool) (t : String),
        RunResult.processExit (VerifyDateDisplay.run ⟨g, wo, tk, t, so⟩)
          = if g && wo && tk && !dateCheckRaises t && so then 0 else 1) ∧
    (∀ g wo e p c f v : Bool,
        RunResult.processExit (VerifyDust.run ⟨g, wo, e, p, c, f, v⟩)
          = if g && wo && e && (p && c && f) then 0 else 1) ∧
    (∀ a b c : Bool,
        RunResult.processExit (VerifyScript.run ⟨a, b, c⟩)
          = if a && b && c then 0 else 1) ∧
    (∀ a b c d : Bool,
        RunResult.processExit (VerifySky.run ⟨a, b, c, d⟩)
          = if a && b && c && d then 0 else 1) ∧
    (∀ a b c d e f : Bool,
        RunResult.processExit (VerifySplashes.run ⟨a, b, c, d, e, f⟩)
          = if a && b && (!c || d && e) && f then 0 else 1) ∧
    (∀ a b c d e f h : Bool,
        RunResult.processExit (VerifySunny.run ⟨a, b, c, d, e, f, h⟩)
          = if a && b && c && d && e && f && h then 0 else 1) ∧
    (∀ a b c d : Bool,
        RunResult.processExit (VerifyStorm.run ⟨a, b, c, d⟩)
          = if a && b && c && d then 0 else 1) ∧
    (∀ a b c d e f h : Bool,
        RunResult.processExit (VerifyChanges.run ⟨a, b, c, d, e, f, h⟩) = 0) ∧
    (∀ a b c d : Bool,
        RunResult.processExit (VerifyCloudsV.run ⟨a, b, c, d⟩) = 0) ∧
    (∀ a b c d e f h : Bool,
        RunResult.processExit (VerifyNight.run ⟨a, b, c, d, e, f, h⟩) = 0) ∧
    (∀ a b c d e f h : Bool,
        RunResult.processExit (VerifyWeather.run ⟨a, b, c, d, e, f, h⟩) = 0) ∧
    (∀ a b c d e f : Bool,
        RunResult.processExit (VerifyCloudsRoot.run ⟨a, b, c, d, e, f⟩) = 0) ∧
    (∀ a b c d : Bool,
        RunResult.processExit (VerifyScene.run ⟨a, b, c, d⟩) = 0) :=
  ⟨dateDisplay_processExit, by decide, by decide, by decide, by decide,
    by decide, by decide, by decide, by decide, by decide, by decide,
    by decide, by decide⟩

/-- C3 counterexample: the captured text `"ab"` is non-empty and is not the
placeholder `"--"`, yet the date-display check of
`verify_date_display.py` raises on it, because the code actually requires
`len(date_text) >= 3`. -/
theorem dateCheck_rejects_short_nonplaceholder :
    dateCheckRaises "ab" = true ∧ ("ab" : String) ≠ "" ∧
      ("ab" : String) ≠ "--" := by
  decide

/-- C3 (amended): the date-display check passes exactly when the captured
inner text has length at least 3 (any such text is automatically non-empty
and differs from the placeholder `"--"`); every shorter text — including
non-empty one- and two-character texts — fails it. -/
theorem dateCheck_passes_iff_len_ge_three (t : String) :
    dateCheckRaises t = false ↔ 3 ≤ t.length := by
  unfold dateCheckRaises
  simp only [Bool.or_eq_false_iff, decide_eq_false_iff_not, not_lt,
    beq_eq_false_iff_ne, ne_eq]
  constructor
  · exact fun h => h.1
  · intro h
    refine ⟨h, fun heq => ?_⟩
    subst heq
    exact absurd h (by decide)

/-- C4 counterexample: in `verify_date_display.py`, a run whose
`wait_for_selector("#date-display", timeout=10000)` does not settle
surfaces the raw framework (Playwright) timeout error, which is not a
`ReadinessTimeoutError`. -/
theorem date_wait_timeout_surfaces_framework_error :
    (VerifyDateDisplay.run ⟨true, false, true, "", true⟩).surfaced
        = some (Err.frameworkTimeout "#date-display") ∧
      Err.isReadinessTimeout (Err.frameworkTimeout "#date-display") = false := by
  decide

/-- C4 (amended): no run of the cited scripts ever surfaces a
`ReadinessTimeoutError` — the type does not exist in the code; a readiness
wait that fails to settle within its timeout surfaces as the raw framework
timeout error instead, as the dust script's failing wait shows. -/
theorem no_readiness_timeout_error_surfaced :
    (∀ (g wo tk so : Bool) (t : String),
        (VerifyDateDisplay.run ⟨g, wo, tk, t, so⟩).surfacedReadiness = false) ∧
    (∀ g wo e p c f v : Bool,
        (VerifyDust.run ⟨g, wo, e, p, c, f, v⟩).surfacedReadiness = false) ∧
    (VerifyDust.run ⟨true, false, true, true, true, true, true⟩).surfaced
      = some (Err.frameworkTimeout "canvas") :=
  ⟨dateDisplay_no_readiness_error, by decide, by decide⟩

/-- C5: every `setDebugWeather` invocation any run of any script can make
passes a code in the declared observed code space
\x7b0, 2, 3, 61, 63, 65, 95\x7d. -/
theorem setDebugWeather_codes_in_declared_space :
    (∀ a b c d e f h : Bool,
        ((VerifyChanges.run ⟨a, b, c, d, e, f, h⟩).weatherCodes.all
          fun n => [0, 2, 3, 61, 63, 65, 95].contains n) = true) ∧
    (∀ a b c d e f h : Bool,
        ((VerifyNight.run ⟨a, b, c, d, e, f, h⟩).weatherCodes.all
          fun n => [0, 2, 3, 61, 63, 65, 95].contains n) = true) ∧
    (∀ a b c d : Bool,
        ((VerifySky.run ⟨a, b, c, d⟩).weatherCodes.all
          fun n => [0, 2, 3, 61, 63, 65, 95].contains n) = true) ∧
    (∀ a b c d e f : Bool,
        ((VerifySplashes.run ⟨a, b, c, d, e, f⟩).weatherCodes.all
          fun n => [0, 2, 3, 61, 63, 65, 95].contains n) = true) ∧
    (∀ a b c d e f h : Bool,
        ((VerifySunny.run ⟨a, b, c, d, e, f, h⟩).weatherCodes.all
          fun n => [0, 2, 3, 61, 63, 65, 95].contains n) = true) ∧
    (∀ a b c d e f h : Bool,
        ((VerifyWeather.run ⟨a, b, c, d, e, f, h⟩).weatherCodes.all
          fun n => [0, 2, 3, 61, 63, 65, 95].contains n) = true) ∧
    (∀ a b c d e f : Bool,
        ((VerifyCloudsRoot.run ⟨a, b, c, d, e, f⟩).weatherCodes.all
          fun n => [0, 2, 3, 61, 63, 65, 95].contains n) = true) ∧
    (∀ a b c d : Bool,
        ((VerifyStorm.run ⟨a, b, c, d⟩).weatherCodes.all
          fun n => [0, 2, 3, 61, 63, 65, 95].contains n) = true) :=
  ⟨by decide, by decide, by decide, by decide, by decide, by decide,
    by decide, by decide⟩

/-- C6: once the dust query of `verify_dust.py` evaluates, the script
prints SUCCESS and the process exits 0 exactly when `pastDust`, `currDust`
and `futureDust` are all truthy, and exits 1 when any of them is absent,
whatever `dustVisible` reports. -/
theorem dust_check_verdict_iff_all_systems :
    ∀ p c f v : Bool,
      ((VerifyDust.run ⟨true, true, true, p, c, f, v⟩).verdict = some true
          ↔ (p && c && f) = true) ∧
        RunResult.processExit (VerifyDust.run ⟨true, true, true, p, c, f, v⟩)
          = if p && c && f then 0 else 1 := by
  decide

/-- C7: within every possible run of each script, the screenshot
destinations supplied to capture requests are pairwise distinct. -/
theorem screenshot_destinations_distinct :
    (∀ a b c d e f h : Bool,
        List.Nodup (VerifyChanges.run ⟨a, b, c, d, e, f, h⟩).screenshots) ∧
    (∀ a b c d : Bool,
        List.Nodup (VerifyCloudsV.run ⟨a, b, c, d⟩).screenshots) ∧
    (∀ (g wo tk so : Bool) (t : String),
        List.Nodup (VerifyDateDisplay.run ⟨g, wo, tk, t, so⟩).screenshots) ∧
    (∀ a b c d e f h : Bool,
        List.Nodup (VerifyDust.run ⟨a, b, c, d, e, f, h⟩).screenshots) ∧
    (∀ a b c d e f h : Bool,
        List.Nodup (VerifyNight.run ⟨a, b, c, d, e, f, h⟩).screenshots) ∧
    (∀ a b c : Bool,
        List.Nodup (VerifyScript.run ⟨a, b, c⟩).screenshots) ∧
    (∀ a b c d : Bool,
        List.Nodup (VerifySky.run ⟨a, b, c, d⟩).screenshots) ∧
    (∀ a b c d e f : Bool,
        List.Nodup (VerifySplashes.run ⟨a, b, c, d, e, f⟩).screenshots) ∧
    (∀ a b c d e f h : Bool,
        List.Nodup (VerifySunny.run ⟨a, b, c, d, e, f, h⟩).screenshots) ∧
    (∀ a b c d e f h : Bool,
        List.Nodup (VerifyWeather.run ⟨a, b, c, d, e, f, h⟩).screenshots) ∧
    (∀ a b c d e f : Bool,
        List.Nodup (VerifyCloudsRoot.run ⟨a, b, c, d, e, f⟩).screenshots) ∧
    (∀ a b c d : Bool,
        List.Nodup (VerifyScene.run ⟨a, b, c, d⟩).screenshots) ∧
    (∀ a b c d : Bool,
        List.Nodup (VerifyStorm.run ⟨a, b, c, d⟩).screenshots) :=
  ⟨by decide, by decide, dateDisplay_screenshots_nodup, by decide, by decide,
    by decide, by decide, by decide, by decide, by decide, by decide,
    by decide, by decide⟩

/-- C8: every fixed (settled) wait a run of any script performs —
`time.sleep` seconds and `page.wait_for_timeout` milliseconds, both in
milliseconds here — lies between 1 and 6 seconds inclusive. -/
theorem fixed_waits_within_one_to_six_seconds :
    (∀ a b c d e f h : Bool,
        ((VerifyChanges.run ⟨a, b, c, d, e, f, h⟩).sleepsMs.all
          fixedWaitInRange) = true) ∧
    (∀ a b c d : Bool,
        ((VerifyCloudsV.run ⟨a, b, c, d⟩).sleepsMs.all fixedWaitInRange)
          = true) ∧
    (∀ (g wo tk so : Bool) (t : String),
        ((VerifyDateDisplay.run ⟨g, wo, tk, t, so⟩).sleepsMs.all
          fixedWaitInRange) = true) ∧
    (∀ a b c d e f h : Bool,
        ((VerifyDust.run ⟨a, b, c, d, e, f, h⟩).sleepsMs.all fixedWaitInRange)
          = true) ∧
    (∀ a b c d e f h : Bool,
        ((VerifyNight.run ⟨a, b, c, d, e, f, h⟩).sleepsMs.all fixedWaitInRange)
          = true) ∧
    (∀ a b c : Bool,
        ((VerifyScript.run ⟨a, b, c⟩).sleepsMs.all fixedWaitInRange) = true) ∧
    (∀ a b c d : Bool,
        ((VerifySky.run ⟨a, b, c, d⟩).sleepsMs.all fixedWaitInRange) = true) ∧
    (∀ a b c d e f : Bool,
        ((VerifySplashes.run ⟨a, b, c, d, e, f⟩).sleepsMs.all fixedWaitInRange)
          = true) ∧
    (∀ a b c d e f h : Bool,
        ((VerifySunny.run ⟨a, b, c, d, e, f, h⟩).sleepsMs.all fixedWaitInRange)
          = true) ∧
    (∀ a b c d e f h : Bool,
        ((VerifyWeather.run ⟨a, b, c, d, e, f, h⟩).sleepsMs.all
          fixedWaitInRange) = true) ∧
    (∀ a b c d e f : Bool,
        ((VerifyCloudsRoot.run ⟨a, b, c, d, e, f⟩).sleepsMs.all
          fixedWaitInRange) = true) ∧
    (∀ a b c d : Bool,
        ((VerifyScene.run ⟨a, b, c, d⟩).sleepsMs.all fixedWaitInRange)
          = true) ∧
    (∀ a b c d : Bool,
        ((VerifyStorm.run ⟨a, b, c, d⟩).sleepsMs.all fixedWaitInRange)
          = true) :=
  ⟨by decide, by decide, dateDisplay_waits_in_range, by decide, by decide,
    by decide, by decide, by decide, by decide, by decide, by decide,
    by decide, by decide⟩

/-- C9: the dust check's verdict and exit status are independent of the
reported `dustVisible` value — two evaluations agreeing on the existence of
`pastDust`, `currDust` and `futureDust` (and on the outcome of every
browser operation) but differing in `dustVisible` yield the same verdict
and the same process exit code. -/
theorem dust_verdict_independent_of_visibility :
    ∀ g wo e p c f v v' : Bool,
      (VerifyDust.run ⟨g, wo, e, p, c, f, v⟩).verdict
          = (VerifyDust.run ⟨g, wo, e, p, c, f, v'⟩).verdict ∧
        RunResult.processExit (VerifyDust.run ⟨g, wo, e, p, c, f, v⟩)
          = RunResult.processExit (VerifyDust.run ⟨g, wo, e, p, c, f, v'⟩) := by
  decide

/-- C10: `src/verify_scene.py` never propagates an exception: on every run
the uncaught-exception slot is empty, the process exits 0, the browser is
closed exactly once, an error is recorded exactly when navigation, waiting
or the scene capture failed, the result ignores the fallback capture's own
outcome (the bare `except` suppresses it), and whenever an error was
recorded the fallback destination `error_state.png` was requested. -/
theorem verifyScene_never_propagates :
    ∀ g wo so fo : Bool,
      (VerifyScene.run ⟨g, wo, so, fo⟩).uncaught = none ∧
        RunResult.processExit (VerifyScene.run ⟨g, wo, so, fo⟩) = 0 ∧
        (VerifyScene.run ⟨g, wo, so, fo⟩).closeCount = 1 ∧
        (VerifyScene.run ⟨g, wo, so, fo⟩).caughtErr.isSome = !(g && wo && so) ∧
        VerifyScene.run ⟨g, wo, so, true⟩ = VerifyScene.run ⟨g, wo, so, false⟩ ∧
        (!(VerifyScene.run ⟨g, wo, so, fo⟩).caughtErr.isSome
          || (VerifyScene.run ⟨g, wo, so, fo⟩).screenshots.contains
              "error_state.png") = true := by
  decide
